import Mathlib

/-!
Verification of the sedona-db geometry-aware columnar execution substrate.

The definitions below are a shallow embedding of the Rust sources:
  - `src/rust/sedona-geometry/src/wkb_header.rs` (WKB fast-path header reader)
  - `src/rust/sedona-functions/src/st_start_point.rs` (endpoint kernels)
  - `src/c/sedona-geos/src/st_buffer.rs` (buffer kernel and its style DSL)
  - `src/rust/sedona-datasource/src/format.rs` and `spec.rs` (file format adapter)

Machine bytes are modelled as `Nat` (each byte < 256 by construction of the
inputs used), `u32`/`u64` values as `Nat`, and `f64` values as their raw
64-bit patterns (the code never performs floating-point arithmetic on them;
it only moves bytes, so the bit-pattern view is exact). Rust `Result` is
`Except String`; a Rust panic (out-of-bounds slice, integer underflow) is a
distinct outcome `PResult.panic`, separate from returning an error.
-/

/-- Outcome of running a fallible Rust function that may also panic:
`ok` (returned a value), `err` (returned `Err(msg)`), `panic` (aborted,
e.g. an out-of-bounds slice index). -/
inductive PResult (α : Type) where
  | ok (a : α)
  | err (e : String)
  | panic
deriving DecidableEq, Repr

/-- WKB geometry dimension (`geo_traits::Dimensions` as used by the reader). -/
inductive Dimensions where
  | xy
  | xyz
  | xym
  | xyzm
deriving DecidableEq, Repr

/-- The seven WKB geometry type ids (`sedona_geometry::types::GeometryTypeId`). -/
inductive GeometryTypeId where
  | point
  | lineString
  | polygon
  | multiPoint
  | multiLineString
  | multiPolygon
  | geometryCollection
deriving DecidableEq, Repr

/-- Modelled from the spec: `GeometryTypeId::try_from_wkb_id` (the type lives in
`sedona-geometry/src/types.rs`, which is not part of the provided sources).
Spec 3: "Low three bits ∈ {1..7} ↦ {Point, LineString, Polygon, MultiPoint,
MultiLineString, MultiPolygon, GeometryCollection}"; other codes are rejected
with an invalid-WKB error ("unexpected type code"). -/
def GeometryTypeId.try_from_wkb_id (id : Nat) : Except String GeometryTypeId :=
  match id with
  | 1 => .ok .point
  | 2 => .ok .lineString
  | 3 => .ok .polygon
  | 4 => .ok .multiPoint
  | 5 => .ok .multiLineString
  | 6 => .ok .multiPolygon
  | 7 => .ok .geometryCollection
  | other => .error s!"Invalid WKB: unexpected geometry type code {other}"

/-- The EWKB SRID flag bit (`SRID_FLAG_BIT` in wkb_header.rs). -/
def SRID_FLAG_BIT : Nat := 0x20000000

/-- Bit pattern of `f64::NAN` (the sentinel the reader returns for empty
geometries). -/
def nan_bits : Nat := 0x7ff8000000000000

/-- Rust `&buf[i..j]` on an in-bounds range, as a list: `buf[i..j]`. Callers
use it only after the source's own bounds checks (out-of-bounds ranges are
modelled with explicit `PResult.panic` at the call sites that can reach them). -/
def rslice (buf : List Nat) (i j : Nat) : List Nat :=
  (buf.drop i).take (j - i)

/-- `read_u32` from wkb_header.rs: reads 4 bytes in the given byte order
(0 big-endian, 1 little-endian); errors on a short buffer or other orders. -/
def read_u32 (buf : List Nat) (byte_order : Nat) : Except String Nat :=
  match buf with
  | b0 :: b1 :: b2 :: b3 :: _ =>
    match byte_order with
    | 0 => .ok (((b0 * 256 + b1) * 256 + b2) * 256 + b3)
    | 1 => .ok (((b3 * 256 + b2) * 256 + b1) * 256 + b0)
    | other => .error s!"Unexpected byte order: {other}"
  | _ => .error "Invalid WKB: buffer too small -> read_u32"

/-- `parse_coord` from wkb_header.rs: reads one f64 (returned as its 64-bit
pattern) from the front of the buffer in the given byte order. -/
def parse_coord (buf : List Nat) (byte_order : Nat) : Except String Nat :=
  match buf with
  | b0 :: b1 :: b2 :: b3 :: b4 :: b5 :: b6 :: b7 :: _ =>
    match byte_order with
    | 0 =>
      .ok ((((((((b0 * 256 + b1) * 256 + b2) * 256 + b3) * 256 + b4) * 256
        + b5) * 256 + b6) * 256 + b7))
    | 1 =>
      .ok ((((((((b7 * 256 + b6) * 256 + b5) * 256 + b4) * 256 + b3) * 256
        + b2) * 256 + b1) * 256 + b0))
    | other => .error s!"Unexpected byte order: {other}"
  | _ => .error "Invalid WKB: buffer too small -> parse_coord"

/-- `parse_dimensions` from wkb_header.rs: top-level dimension of the geometry
whose header starts the buffer (divisor-of-1000 convention). -/
def parse_dimensions (buf : List Nat) : Except String Dimensions :=
  if buf.length < 9 then
    .error "Invalid WKB: buffer too small -> parse_dimensions"
  else
    let byte_order := buf.headD 0
    match read_u32 (rslice buf 1 5) byte_order with
    | .error e => .error e
    | .ok code =>
      match code / 1000 with
      | 0 => .ok .xy
      | 1 => .ok .xyz
      | 2 => .ok .xym
      | 3 => .ok .xyzm
      | _ => .error s!"Unexpected code: {code}"

/-- `first_geom_idx` from wkb_header.rs. For a collection it reads the 4 bytes
at offset 5 as the element count (note: this is the SRID field when the EWKB
flag is set), returns `none` when that word is 0, and otherwise recurses at
offset 9 (13 when the SRID flag is set). An `Err` from the recursive call is
converted to `Ok(None)` by the source's `if let Ok(Some(off))` pattern; a
panic (slicing `&buf[i..]` with `i > buf.len()`) propagates. -/
def first_geom_idx_go : Nat → List Nat → PResult (Option Nat)
  | 0, _ => .panic
  | fuel + 1, buf =>
    if buf.length < 5 then
      .err "Invalid WKB: buffer too small -> first_geom_idx"
    else
      let byte_order := buf.headD 0
      match read_u32 (rslice buf 1 5) byte_order with
      | .error e => .err e
      | .ok geometry_type =>
        match GeometryTypeId.try_from_wkb_id (geometry_type &&& 0x7) with
        | .error e => .err e
        | .ok gid =>
          match gid with
          | .point | .lineString | .polygon => .ok (some 0)
          | _ =>
            if buf.length < 9 then
              .err "Invalid WKB: buffer too small"
            else
              match read_u32 (rslice buf 5 9) byte_order with
              | .error e => .err e
              | .ok num_geometries =>
                if num_geometries = 0 then .ok none
                else
                  if geometry_type &&& SRID_FLAG_BIT ≠ 0 then
                    if 13 ≤ buf.length then
                      match first_geom_idx_go fuel (buf.drop 13) with
                      | .panic => .panic
                      | .ok (some off) => .ok (some (13 + off))
                      | _ => .ok none
                    else .panic
                  else
                    match first_geom_idx_go fuel (buf.drop 9) with
                    | .panic => .panic
                    | .ok (some off) => .ok (some (9 + off))
                    | _ => .ok none

/-- `first_geom_idx` itself. The fuel `buf.length + 1` is never exhausted:
entering the recursive case needs at least 9 bytes, every recursive call
drops at least 9 bytes from the buffer while spending one unit of fuel, so
the fuel stays strictly above the remaining length. -/
def first_geom_idx (buf : List Nat) : PResult (Option Nat) :=
  first_geom_idx_go (buf.length + 1) buf

/-- The tail of `first_xy` in wkb_header.rs: the final bounds check and the
two `parse_coord` calls at offsets `i` and `i + 8`. -/
def first_xy_coords (buf : List Nat) (byte_order i : Nat) : PResult (Nat × Nat) :=
  if buf.length < i + 8 then
    .err s!"Invalid WKB: buffer too small -> first_xy4 {i + 8} is not < {buf.length}"
  else
    match parse_coord (buf.drop i) byte_order with
    | .error e => .err e
    | .ok x =>
      match parse_coord (buf.drop (i + 8)) byte_order with
      | .error e => .err e
      | .ok y => .ok (x, y)

/-- `first_xy` from wkb_header.rs: given a point, linestring, or polygon at
the start of the buffer, the first xy coordinate (as f64 bit patterns), or
`(NaN, NaN)` for an empty geometry / empty first ring. -/
def first_xy (buf : List Nat) : PResult (Nat × Nat) :=
  if buf.length < 5 then
    .err "Invalid WKB: buffer too small -> first_xy"
  else
    let byte_order := buf.headD 0
    match read_u32 (rslice buf 1 5) byte_order with
    | .error e => .err e
    | .ok geometry_type =>
      match GeometryTypeId.try_from_wkb_id (geometry_type &&& 0x7) with
      | .error e => .err e
      | .ok gid =>
        let i := if geometry_type &&& SRID_FLAG_BIT ≠ 0 then 9 else 5
        match gid with
        | .lineString =>
          if buf.length < i + 4 then
            .err s!"Invalid WKB: buffer too small -> first_xy3 {buf.length} is not < {i + 4}"
          else
            match read_u32 (rslice buf i (i + 4)) byte_order with
            | .error e => .err e
            | .ok size =>
              if size = 0 then .ok (nan_bits, nan_bits)
              else first_xy_coords buf byte_order (i + 4)
        | .polygon =>
          if buf.length < i + 4 then
            .err s!"Invalid WKB: buffer too small -> first_xy3 {buf.length} is not < {i + 4}"
          else
            match read_u32 (rslice buf i (i + 4)) byte_order with
            | .error e => .err e
            | .ok size =>
              if size = 0 then .ok (nan_bits, nan_bits)
              else
                if buf.length < i + 8 then
                  .err s!"Invalid WKB: buffer too small -> polygon first ring size {buf.length} is not < {i + 8}"
                else
                  match read_u32 (rslice buf (i + 4) (i + 8)) byte_order with
                  | .error e => .err e
                  | .ok ring0_num_points =>
                    if ring0_num_points = 0 then .ok (nan_bits, nan_bits)
                    else first_xy_coords buf byte_order (i + 8)
        | _ => first_xy_coords buf byte_order i

/-- The precomputed WKB header (`WkbHeader` in wkb_header.rs). `first_xy`
holds the two f64 bit patterns; `first_geom_dimensions` is `none` when the
reader recorded "no first geometry". -/
structure WkbHeader where
  geometry_type : Nat
  size : Nat
  srid : Nat
  first_xy : Nat × Nat
  first_geom_dimensions : Option Dimensions
deriving DecidableEq, Repr

/-- `WkbHeader::try_new` from wkb_header.rs. The SRID read slices
`&buf[5..9]` and the count read slices `&buf[i..i + 4]` without a prior
length check, so those two reads panic (rather than erroring) on a buffer
too short for them. -/
def wkb_header_try_new (buf : List Nat) : PResult WkbHeader :=
  if buf.length < 5 then
    .err "Invalid WKB: buffer too small -> try_new"
  else
    let byte_order := buf.headD 0
    match read_u32 (rslice buf 1 5) byte_order with
    | .error e => .err e
    | .ok geometry_type =>
      match GeometryTypeId.try_from_wkb_id (geometry_type &&& 0x7) with
      | .error e => .err e
      | .ok geometry_type_id =>
        match (if geometry_type &&& SRID_FLAG_BIT ≠ 0 then
                 if 9 ≤ buf.length then
                   match read_u32 (rslice buf 5 9) byte_order with
                   | .error e => .err e
                   | .ok srid => .ok (srid, 9)
                 else .panic
               else .ok (0, 5) : PResult (Nat × Nat)) with
        | .panic => .panic
        | .err e => .err e
        | .ok (srid, i) =>
          match (if geometry_type_id = .point then (.ok 1 : PResult Nat)
                 else if i + 4 ≤ buf.length then
                   match read_u32 (rslice buf i (i + 4)) byte_order with
                   | .error e => .err e
                   | .ok n => .ok n
                 else .panic) with
          | .panic => .panic
          | .err e => .err e
          | .ok size =>
            match first_geom_idx buf with
            | .panic => .panic
            | .err e => .err e
            | .ok none =>
              .ok ⟨geometry_type, size, srid, (nan_bits, nan_bits), none⟩
            | .ok (some gi) =>
              if gi ≤ buf.length then
                match parse_dimensions (buf.drop gi) with
                | .error e => .err e
                | .ok dims =>
                  match first_xy (buf.drop gi) with
                  | .panic => .panic
                  | .err e => .err e
                  | .ok fxy => .ok ⟨geometry_type, size, srid, fxy, some dims⟩
              else .panic

/-- `WkbHeader::try_new` under its source name (the standalone constructor
above avoids the clash between the `first_xy` field and the `first_xy`
function inside the `WkbHeader` namespace). -/
def WkbHeader.try_new : List Nat → PResult WkbHeader :=
  wkb_header_try_new

/-- `WkbHeader::dimensions`: the top-level dimension, computed from the
cached type code by integer division by 1000. -/
def WkbHeader.dimensions (h : WkbHeader) : Except String Dimensions :=
  match h.geometry_type / 1000 with
  | 0 => .ok .xy
  | 1 => .ok .xyz
  | 2 => .ok .xym
  | 3 => .ok .xyzm
  | _ => .error s!"Unexpected code: {h.geometry_type}"

/-- Little-endian serialization of a u32, as four bytes. -/
def u32le (n : Nat) : List Nat :=
  [n % 256, n / 256 % 256, n / 65536 % 256, n / 16777216 % 256]

/-- Little-endian serialization of a u64 (an f64 bit pattern), as eight bytes. -/
def u64le (n : Nat) : List Nat :=
  [n % 256, n / 256 % 256, n / 65536 % 256, n / 16777216 % 256,
   n / 4294967296 % 256, n / 1099511627776 % 256,
   n / 281474976710656 % 256, n / 72057594037927936 % 256]

/-! ## Endpoint kernels (`st_start_point.rs`) -/

/-- Writes `src` into `l` starting at position `i` (Rust
`l[i..i + src.len()].copy_from_slice(&src)`), assuming `i + src.length ≤
l.length` as at the single call site (`i = 5`, `src.length ≤ 32`,
`l.length = 37`). -/
def write_range (l : List Nat) (i : Nat) (src : List Nat) : List Nat :=
  l.take i ++ src ++ l.drop (i + src.length)

/-- The reusable scratch buffer of `STStartOrEndPoint::invoke_batch`:
`let mut item = [0u8; 37]; item[0] = 0x01;`. It is created once per batch
and mutated across rows. -/
def st_point_item0 : List Nat :=
  (List.replicate 37 0).set 0 1

/-- One row of `STStartOrEndPoint::invoke_batch` (the closure body) on a
non-null WKB value. Takes and returns the scratch `item` buffer, plus the
value appended to the builder (`none` for `append_null`). Panics are:
indexing `buf[1]`/`buf[2]` on a shorter buffer, the out-of-bounds source
slice `&buf[9..9 + n_bytes]` for the start kernel, and the `usize`
underflow `buf.len() - n_bytes` for the end kernel. -/
def st_start_or_end_point_row (from_start : Bool) (item : List Nat)
    (buf : List Nat) : PResult (List Nat × Option (List Nat)) :=
  match buf.get? 1, buf.get? 2 with
  | some b1, some b2 =>
    let cls : Option (List Nat × Nat) :=
      if b1 = 0x02 ∧ b2 = 0x00 then some (item.set 1 0x01, 16)
      else if b1 = 0xea ∧ b2 = 0x03 then some ((item.set 1 0xe9).set 2 0x03, 24)
      else if b1 = 0xd2 ∧ b2 = 0x07 then some ((item.set 1 0xd1).set 2 0x07, 24)
      else if b1 = 0xba ∧ b2 = 0x0b then some ((item.set 1 0xb9).set 2 0x0b, 32)
      else none
    match cls with
    | none => .ok (item, none)
    | some (item1, n_bytes) =>
      if from_start then
        if 9 + n_bytes ≤ buf.length then
          let item2 := write_range item1 5 (rslice buf 9 (9 + n_bytes))
          .ok (item2, some (item2.take (5 + n_bytes)))
        else .panic
      else
        if n_bytes ≤ buf.length then
          let src := buf.length - n_bytes
          let item2 := write_range item1 5 (rslice buf src (src + n_bytes))
          .ok (item2, some (item2.take (5 + n_bytes)))
        else .panic
  | _, _ => .panic

/-- One full row of the endpoint batch closure. Modelled from the spec
(§4.2): the vectorized executor presents `none` for a null geometry row, and
the closure appends a null for it; a non-null row runs
`st_start_or_end_point_row`. -/
def st_start_or_end_point_step (from_start : Bool) (item : List Nat) :
    Option (List Nat) → PResult (List Nat × Option (List Nat))
  | none => .ok (item, none)
  | some buf => st_start_or_end_point_row from_start item buf

/-- The batch loop of `STStartOrEndPoint::invoke_batch`, threading the
scratch `item` buffer through the rows. -/
def st_start_or_end_point_go (from_start : Bool) (item : List Nat) :
    List (Option (List Nat)) → PResult (List (Option (List Nat)))
  | [] => .ok []
  | row :: rest =>
    match st_start_or_end_point_step from_start item row with
    | .panic => .panic
    | .err e => .err e
    | .ok (item1, out) =>
      match st_start_or_end_point_go from_start item1 rest with
      | .ok outs => .ok (out :: outs)
      | r => r

/-- `STStartOrEndPoint::invoke_batch` over a batch of optional WKB rows
(`from_start = true` for `st_start_point`, `false` for `st_end_point`). -/
def st_start_or_end_point_invoke_batch (from_start : Bool)
    (rows : List (Option (List Nat))) : PResult (List (Option (List Nat))) :=
  st_start_or_end_point_go from_start st_point_item0 rows

/-! ## Buffer kernel and its style DSL (`st_buffer.rs`) -/

/-- geos `CapStyle`. -/
inductive CapStyle where
  | round
  | flat
  | square
deriving DecidableEq, Repr

/-- geos `JoinStyle`. -/
inductive JoinStyle where
  | round
  | mitre
  | bevel
deriving DecidableEq, Repr

/-- The builder state accumulated by `parse_buffer_params` (the settings
recorded on the geos `BufferParamsBuilder`). The two numeric parameters are
kept as their validated literal text: the kernel only forwards them to the
external geometry library, so no numeric semantics is needed here. -/
structure BufferParamsBuilder where
  end_cap_style : Option CapStyle
  join_style : Option JoinStyle
  single_sided : Option Bool
  mitre_limit : Option String
  quadrant_segments : Option String
deriving DecidableEq, Repr

/-- The built geos `BufferParams` (opaque to the kernel; the build step is
modelled as succeeding on every recorded combination). -/
abbrev BufferParams := BufferParamsBuilder

/-- Modelled from the spec: geos `BufferParams::builder().build()` — an
external-library call that succeeds for the settings this DSL can record. -/
def buffer_params_build (b : BufferParamsBuilder) : Except String BufferParams :=
  .ok b

/-- Rust `str::split_once('=')` on the character list. -/
def split_once_aux (c : Char) : List Char → Option (List Char × List Char)
  | [] => none
  | x :: xs =>
    if x = c then some ([], xs)
    else (split_once_aux c xs).map (fun p => (x :: p.1, p.2))

/-- Rust `str::split_once(c)`: splits at the first occurrence of `c`,
returning the text before and after it, or `none` when `c` is absent. -/
def split_once (s : String) (c : Char) : Option (String × String) :=
  (split_once_aux c s.toList).map (fun p => (⟨p.1⟩, ⟨p.2⟩))

/-- Decidable equality for `Except` (absent from core), so that concrete
parser outcomes can be settled by `decide`. -/
instance {ε α : Type} [DecidableEq ε] [DecidableEq α] : DecidableEq (Except ε α) :=
  fun x y =>
    match x, y with
    | .error e1, .error e2 =>
      if h : e1 = e2 then .isTrue (h ▸ rfl)
      else .isFalse (fun hh => h (Except.error.inj hh))
    | .ok a1, .ok a2 =>
      if h : a1 = a2 then .isTrue (h ▸ rfl)
      else .isFalse (fun hh => h (Except.ok.inj hh))
    | .error _, .ok _ => .isFalse (fun hh => Except.noConfusion hh)
    | .ok _, .error _ => .isFalse (fun hh => Except.noConfusion hh)

/-- Worker for `split_whitespace`: `cur` is the current chunk, reversed. -/
def split_ws_go (cur : List Char) : List Char → List String
  | [] => match cur with
    | [] => []
    | _ => [⟨cur.reverse⟩]
  | c :: rest =>
    if c.isWhitespace then
      match cur with
      | [] => split_ws_go [] rest
      | _ => ⟨cur.reverse⟩ :: split_ws_go [] rest
    else split_ws_go (c :: cur) rest

/-- Rust `str::split_whitespace()`: the maximal nonempty chunks between
whitespace runs. -/
def split_whitespace (s : String) : List String :=
  split_ws_go [] s.toList

/-- Rust `str::to_lowercase()` (ASCII-relevant part: all inputs considered
are ASCII, where Unicode and ASCII lowercasing agree). -/
def to_lowercase (s : String) : String :=
  ⟨s.toList.map Char.toLower⟩

/-- `parse_cap_style` from st_buffer.rs. -/
def parse_cap_style (value : String) : Except String CapStyle :=
  match to_lowercase value with
  | "round" => .ok .round
  | "flat" | "butt" => .ok .flat
  | "square" => .ok .square
  | _ => .error s!"Invalid endcap style: '{value}'. Valid options: round, flat, butt, square"

/-- `parse_join_style` from st_buffer.rs. -/
def parse_join_style (value : String) : Except String JoinStyle :=
  match to_lowercase value with
  | "round" => .ok .round
  | "mitre" | "miter" => .ok .mitre
  | "bevel" => .ok .bevel
  | _ => .error s!"Invalid join style: '{value}'. Valid options: round, mitre, miter, bevel"

/-- `parse_side` from st_buffer.rs (`true` = single-sided). -/
def parse_side (value : String) : Except String Bool :=
  match to_lowercase value with
  | "both" => .ok false
  | "left" | "right" => .ok true
  | _ => .error s!"Invalid side: '{value}'. Valid options: both, left, right"

/-- Modelled from Rust std: whether `str::parse::<i32>` accepts the string —
an optional sign followed by at least one ASCII digit (overflow, which none
of the considered inputs reaches, is not modelled). -/
def rust_i32_accepts (s : String) : Bool :=
  match s.toList with
  | [] => false
  | c :: rest =>
    if c = '-' ∨ c = '+' then decide (rest ≠ []) && rest.all Char.isDigit
    else (c :: rest).all Char.isDigit

/-- Modelled from Rust std: whether `str::parse::<f64>` accepts the string —
an optional sign followed by `digits`, `digits.digits?`, or `.digits`, an
optional exponent, or (case-insensitively) `inf`/`infinity`/`nan`. -/
def rust_f64_accepts (s : String) : Bool :=
  let body := match s.toList with
    | c :: rest => if c = '-' ∨ c = '+' then rest else c :: rest
    | [] => []
  let lower := body.map Char.toLower
  if lower = "inf".toList ∨ lower = "infinity".toList ∨ lower = "nan".toList then
    true
  else
    let mantissa := body.takeWhile (fun c => c ≠ 'e' ∧ c ≠ 'E')
    let expPart := body.drop mantissa.length
    let intPart := mantissa.takeWhile Char.isDigit
    let fracTail := mantissa.drop intPart.length
    let mantissaOk :=
      match fracTail with
      | [] => decide (intPart ≠ [])
      | '.' :: frac =>
        (decide (intPart ≠ []) || decide (frac ≠ [])) && frac.all Char.isDigit
      | _ => false
    let expOk :=
      match expPart with
      | [] => true
      | _ :: rest =>
        let digits := match rest with
          | c :: rest2 => if c = '-' ∨ c = '+' then rest2 else c :: rest2
          | [] => []
        decide (digits ≠ []) && digits.all Char.isDigit
    mantissaOk && expOk

/-- `parse_number::<T>` from st_buffer.rs, with the acceptance test of the
concrete `T` passed in; on success the validated literal is kept verbatim. -/
def parse_number (accepts : String → Bool) (value : String)
    (param_name : String) : Except String String :=
  if accepts value then .ok value
  else .error s!"Invalid {param_name} value: '{value}'. Expected a valid number"

/-- One token of the `parse_buffer_params` loop body. -/
def apply_buffer_param (b : BufferParamsBuilder) (param : String) :
    Except String BufferParamsBuilder :=
  match split_once param '=' with
  | none => .error s!"Missing value for buffer parameter: {param}"
  | some (key, value) =>
    match to_lowercase key with
    | "endcap" =>
      (parse_cap_style value).map (fun c => { b with end_cap_style := some c })
    | "join" =>
      (parse_join_style value).map (fun j => { b with join_style := some j })
    | "side" =>
      (parse_side value).map (fun v => { b with single_sided := some v })
    | "mitre_limit" | "miter_limit" =>
      (parse_number rust_f64_accepts value "mitre_limit").map
        (fun v => { b with mitre_limit := some v })
    | "quad_segs" | "quadrant_segments" =>
      (parse_number rust_i32_accepts value "quadrant_segments").map
        (fun v => { b with quadrant_segments := some v })
    | other =>
      .error s!"Invalid buffer parameter: {other} (accept: 'endcap', 'join', 'mitre_limit', 'miter_limit', 'quad_segs' and 'side')"

/-- The token loop of `parse_buffer_params`: the first failing token aborts
with its error; later tokens are not looked at. -/
def parse_buffer_params_go (b : BufferParamsBuilder) :
    List String → Except String BufferParamsBuilder
  | [] => .ok b
  | t :: rest =>
    match apply_buffer_param b t with
    | .error e => .error e
    | .ok b1 => parse_buffer_params_go b1 rest

/-- The all-defaults builder (`BufferParams::builder()`). -/
def builder_default : BufferParamsBuilder := ⟨none, none, none, none, none⟩

/-- `parse_buffer_params` from st_buffer.rs. -/
def parse_buffer_params (params_str : Option String) : Except String BufferParams :=
  match params_str with
  | none => buffer_params_build builder_default
  | some s =>
    match parse_buffer_params_go builder_default (split_whitespace s) with
    | .error e => .error e
    | .ok b => buffer_params_build b

/-- One row of `invoke_batch_impl` in st_buffer.rs: the optional geometry
paired with the optional distance (f64 bit pattern). A row with both present
calls the external geos buffer (abstracted as `buffer_fn`, covering
`buffer_with_params` + `to_wkb` + the builder write); any other row appends
a null. -/
def st_buffer_row (buffer_fn : List Nat → Nat → BufferParams → Except String (List Nat))
    (params : BufferParams) :
    Option (List Nat) → Option Nat → Except String (Option (List Nat))
  | some g, some d => (buffer_fn g d params).map some
  | _, _ => .ok none

/-- The loop of `invoke_batch_impl` over the rows. -/
def st_buffer_rows (buffer_fn : List Nat → Nat → BufferParams → Except String (List Nat))
    (params : BufferParams) :
    List (Option (List Nat) × Option Nat) → Except String (List (Option (List Nat)))
  | [] => .ok []
  | (g?, d?) :: rest =>
    match st_buffer_row buffer_fn params g? d? with
    | .error e => .error e
    | .ok out => (st_buffer_rows buffer_fn params rest).map (out :: ·)

/-- `invoke_batch_impl` from st_buffer.rs: parses the style string once for
the batch, then runs the row loop. -/
def st_buffer_invoke_batch
    (buffer_fn : List Nat → Nat → BufferParams → Except String (List Nat))
    (style : Option String)
    (rows : List (Option (List Nat) × Option Nat)) :
    Except String (List (Option (List Nat))) :=
  match parse_buffer_params style with
  | .error e => .error e
  | .ok params => st_buffer_rows buffer_fn params rows

/-! ## File format adapter (`spec.rs`, `format.rs`) -/

/-- Substring containment, modelling Rust `str::contains(&str)`. -/
def contains_substr (s pat : String) : Bool :=
  decide (pat.toList <:+: s.toList)

/-- The `Object` reference of spec.rs. `store_debug` stands for the
diagnostic rendering `format!("{:?}", self.store)`; `url` for the optional
`ObjectStoreUrl` (rendered by `Display`); `meta_location` for the optional
`ObjectMeta`'s location path. The byte `range` is never read by
`to_url_string`. -/
structure Object where
  store_debug : String
  url : Option String
  meta_location : Option String
  range : Option (Int × Int)
deriving DecidableEq, Repr

/-- `Object::to_url_string` from spec.rs. -/
def Object.to_url_string (o : Object) : String :=
  match o.url, o.meta_location with
  | none, none => o.store_debug
  | none, some loc =>
    let object_store_debug := to_lowercase o.store_debug
    if contains_substr object_store_debug "http" then "https://" ++ loc
    else if contains_substr object_store_debug "local" then "file:///" ++ loc
    else object_store_debug ++ ": " ++ loc
  | some url, none => url
  | some url, some loc => url ++ "/" ++ loc

/-- An arrow schema field (name, data type, nullability), with the data type
kept abstract as a string (`Field` itself names Mathlib's algebraic class). -/
structure ArrowField where
  name : String
  dtype : String
  nullable : Bool
deriving DecidableEq, Repr

/-- Modelled from the spec: one field step of arrow `Schema::try_merge`
(field-by-field compatible unification): a new name is appended, an existing
name must agree on the data type (error otherwise) and or-s nullability. -/
def try_merge_field (acc : List ArrowField) (f : ArrowField) : Except String (List ArrowField) :=
  match acc.find? (fun g => g.name = f.name) with
  | none => .ok (acc ++ [f])
  | some g =>
    if g.dtype = f.dtype then
      .ok (acc.map (fun h =>
        if h.name = f.name then { h with nullable := h.nullable || f.nullable } else h))
    else
      .error s!"Fail to merge schema field {f.name} because the from data_type = {f.dtype} does not equal {g.dtype}"

/-- Folds `try_merge_field` over one schema's fields. -/
def try_merge_fields (acc : List ArrowField) : List ArrowField → Except String (List ArrowField)
  | [] => .ok acc
  | f :: fs =>
    match try_merge_field acc f with
    | .error e => .error e
    | .ok acc1 => try_merge_fields acc1 fs

/-- Modelled from the spec: arrow `Schema::try_merge` over a list of schemas,
in list order. -/
def schema_try_merge_go (acc : List ArrowField) : List (List ArrowField) → Except String (List ArrowField)
  | [] => .ok acc
  | s :: ss =>
    match try_merge_fields acc s with
    | .error e => .error e
    | .ok acc1 => schema_try_merge_go acc1 ss

/-- `Schema::try_merge(schemas)` as used by `infer_schema`. -/
def schema_try_merge (schemas : List (List ArrowField)) : Except String (List ArrowField) :=
  schema_try_merge_go [] schemas

/-- The `futures` crate's `buffered(n)` stream combinator, as used by
`RecordBatchReaderFormat::infer_schema`: it runs up to `n` tasks at once but
yields each task's result in the order of the underlying stream, holding a
completed result back until all earlier ones have been yielded. Given the
order in which tasks complete (`completion_order`, a permutation of the task
indices), the collected output is therefore the results of the completed
indices taken in ascending index order (a stable sort of the completed
indices). The concurrency bound (`meta_fetch_concurrency`) only limits how
many tasks are in flight and does not affect the emitted order, so it does
not appear. -/
def buffered_collect (completion_order : List Nat) (results : List α) : List α :=
  (List.insertionSort (· ≤ ·) completion_order).filterMap (fun i => results.get? i)

/-- `RecordBatchReaderFormat::infer_schema` from format.rs, over the
per-object `(location, schema)` pairs that the spec's `infer_schema` returns
for each object (in object-list order): collect the concurrent task results,
sort them by location (`sort_by` is a stable sort, modelled by the stable
`insertionSort`, and `Path` ordering is the string order of the path), drop
the locations, and merge the schemas. -/
def record_batch_reader_format_infer_schema
    (pairs : List (String × List ArrowField)) (completion_order : List Nat) :
    Except String (List ArrowField) :=
  let collected := buffered_collect completion_order pairs
  let sorted := List.insertionSort (fun a b => a.1 ≤ b.1) collected
  schema_try_merge (sorted.map Prod.snd)

/-! ## Concrete inputs -/

/-- f64 bit patterns of the small constants used by the concrete inputs. -/
def bits_0p5 : Nat := 0x3FE0000000000000

/-- Bit pattern of 1.0. -/
def bits_1 : Nat := 0x3FF0000000000000

/-- Bit pattern of 1.5. -/
def bits_1p5 : Nat := 0x3FF8000000000000

/-- Bit pattern of 2.0. -/
def bits_2 : Nat := 0x4000000000000000

/-- Bit pattern of 3.0. -/
def bits_3 : Nat := 0x4008000000000000

/-- Bit pattern of 4.0. -/
def bits_4 : Nat := 0x4010000000000000

/-- Bit pattern of 5.0. -/
def bits_5 : Nat := 0x4014000000000000

/-- Little-endian EWKB MULTIPOINT with the SRID flag set, SRID = 0, element
count 1, and one child POINT (1 2): `[order=1][type=0x20000004][srid=0]
[count=1][child point at offset 13]`. -/
def ewkb_multipoint_srid0 : List Nat :=
  [0x01, 0x04, 0x00, 0x00, 0x20,
   0x00, 0x00, 0x00, 0x00,
   0x01, 0x00, 0x00, 0x00,
   0x01, 0x01, 0x00, 0x00, 0x00] ++ u64le bits_1 ++ u64le bits_2

/-- A little-endian MULTIPOINT header claiming 1 element but truncated right
after the count (9 bytes). -/
def truncated_multipoint : List Nat := [1, 4, 0, 0, 0, 1, 0, 0, 0]

/-- A bare little-endian LINESTRING header (5 bytes: order + type code). -/
def bare_linestring_header : List Nat := [1, 2, 0, 0, 0]

/-- `MULTIPOINT_WITH_INFERRED_Z_DIMENSION_WKB` from
`sedona-testing/src/fixtures.rs` (38 bytes): a MULTIPOINT whose top-level
type code is flagged XY while its single child POINT is flagged XYZ, with
coordinates (1, 2, 3). -/
def multipoint_with_inferred_z_dimension_wkb : List Nat :=
  [0x01,
   0x04, 0x00, 0x00, 0x00,
   0x01, 0x00, 0x00, 0x00,
   0x01,
   0xe9, 0x03, 0x00, 0x00,
   0x00, 0x00, 0x00, 0x00, 0x00, 0x00, 0xf0, 0x3f,
   0x00, 0x00, 0x00, 0x00, 0x00, 0x00, 0x00, 0x40,
   0x00, 0x00, 0x00, 0x00, 0x00, 0x00, 0x08, 0x40]

/-- The header values `try_new` computes for the fixture above. -/
def multipoint_inferred_z_header : WkbHeader :=
  ⟨4, 1, 0, (bits_1, bits_2), some .xyz⟩

/-- Little-endian WKB of `LINESTRING Z (1 2 3, 3 4 5)`. -/
def linestring_z_wkb : List Nat :=
  [0x01, 0xea, 0x03, 0x00, 0x00, 0x02, 0x00, 0x00, 0x00]
  ++ u64le bits_1 ++ u64le bits_2 ++ u64le bits_3
  ++ u64le bits_3 ++ u64le bits_4 ++ u64le bits_5

/-- Little-endian WKB of `LINESTRING (1 2, 3 4)`. -/
def linestring_xy_wkb : List Nat :=
  [0x01, 0x02, 0x00, 0x00, 0x00, 0x02, 0x00, 0x00, 0x00]
  ++ u64le bits_1 ++ u64le bits_2 ++ u64le bits_3 ++ u64le bits_4

/-- Little-endian WKB of `LINESTRING EMPTY` (9 bytes: order, type, count 0). -/
def linestring_empty_wkb : List Nat := [1, 2, 0, 0, 0, 0, 0, 0, 0]

/-- Byte serialization of one coordinate pair (f64 bit patterns),
little-endian XY. -/
def coord_bytes (c : Nat × Nat) : List Nat :=
  u64le c.1 ++ u64le c.2

/-- Byte serialization of one polygon ring: the point count followed by the
coordinate pairs. -/
def polygon_ring_bytes (r : List (Nat × Nat)) : List Nat :=
  u32le r.length ++ r.flatMap coord_bytes

/-- Generator of little-endian XY POLYGON WKB: order byte 1, type code 3,
ring count, then the rings. -/
def polygon_wkb_le (rings : List (List (Nat × Nat))) : List Nat :=
  [1, 3, 0, 0, 0] ++ u32le rings.length ++ rings.flatMap polygon_ring_bytes

/-- The rings of `POLYGON((1.5 0.5, 1.5 1.5, 1.5 0.5),(0 0,0 1,1 0,0 0))`. -/
def polygon_two_rings : List (List (Nat × Nat)) :=
  [[(bits_1p5, bits_0p5), (bits_1p5, bits_1p5), (bits_1p5, bits_0p5)],
   [(0, 0), (0, bits_1), (bits_1, 0), (0, 0)]]

/-- Its WKB bytes. -/
def polygon_two_rings_wkb : List Nat := polygon_wkb_le polygon_two_rings

/-- An object reference carrying both a URL and object metadata. -/
def s3_object : Object := ⟨"S3(bucket)", some "s3://bucket", some "a.parquet", none⟩

/-- The rendering rules of claim C10 as amended: a URL alone renders as
itself; a URL with metadata renders as the URL, a slash, and the location;
metadata without a URL renders as the location prefixed with "https://" when
the store's lowercased debug identity contains "http", with "file:///" when
it contains "local", and otherwise as that identity, ": ", and the location;
with neither, the store's diagnostic rendering is used. -/
def to_url_string_spec (o : Object) : String :=
  match o.url, o.meta_location with
  | some url, none => url
  | some url, some loc => url ++ "/" ++ loc
  | none, some loc =>
    if contains_substr (to_lowercase o.store_debug) "http" then "https://" ++ loc
    else if contains_substr (to_lowercase o.store_debug) "local" then "file:///" ++ loc
    else to_lowercase o.store_debug ++ ": " ++ loc
  | none, none => o.store_debug

/-- Two objects (out of order) with one schema field each, for the schema
inference witness. -/
def demo_pairs : List (String × List ArrowField) :=
  [("b", [⟨"y", "Utf8", true⟩]), ("a", [⟨"x", "Int64", false⟩])]

/-! ## Claim theorems -/

/-- Claim C1. For an EWKB collection with the SRID bit set and a nonzero
element count, `WkbHeader::try_new` does read the SRID from bytes 5..9 and
the element count from bytes 9..13 (here `srid = 0`, `size = 1`); but the
descendant search of `first_geom_idx` re-reads bytes 5..9 — the SRID field —
as the element count, so with SRID 0 it records "no first geometry"
(`first_geom_dimensions = none`, `first_xy = (NaN, NaN)`) even though the
first non-collection descendant sits at offset 13, immediately after the
count, where `first_geom_idx` on the tail finds it at relative offset 0.
The claim's located-descendant behavior therefore does not happen. -/
theorem c1_ewkb_count_read_from_srid_bytes :
    WkbHeader.try_new ewkb_multipoint_srid0 =
      .ok ⟨0x20000004, 1, 0, (nan_bits, nan_bits), none⟩ ∧
    first_geom_idx (ewkb_multipoint_srid0.drop 13) = .ok (some 0) ∧
    first_geom_idx ewkb_multipoint_srid0 = .ok none := by
  decide

/-- Claim C2. `WkbHeader::try_new` is not all-or-error: (a) on a MULTIPOINT
that declares 1 element but is truncated right after the count, the
buffer-too-small failure raised inside the descendant search is swallowed by
`first_geom_idx`'s `if let Ok(Some(off))` pattern and `try_new` returns a
fully "successful" header (NaN first point, no first-geometry dimension)
instead of an error; (b) on a bare 5-byte LINESTRING header the count read
slices `&buf[5..9]` out of bounds and panics instead of returning an
invalid-WKB error. -/
theorem c2_try_new_not_all_or_error :
    WkbHeader.try_new truncated_multipoint =
      .ok ⟨4, 1, 0, (nan_bits, nan_bits), none⟩ ∧
    WkbHeader.try_new bare_linestring_header = .panic := by
  decide

/-- Claim C3. The endpoint kernels do not always preserve dimension: the
scratch `item` buffer is reused across rows and the XY arm only overwrites
`item[1]`, so after a LINESTRING Z row a LINESTRING XY row emits the header
`[01, 01, 03, 00, 00]` — type code 769, not the POINT XY code 1. The second
output of this batch is therefore not a POINT of the input's dimension. -/
theorem c3_endpoint_stale_dimension_byte :
    st_start_or_end_point_invoke_batch true
        [some linestring_z_wkb, some linestring_xy_wkb] =
      .ok [some ([0x01, 0xe9, 0x03, 0x00, 0x00]
                  ++ u64le bits_1 ++ u64le bits_2 ++ u64le bits_3),
           some ([0x01, 0x01, 0x03, 0x00, 0x00] ++ u64le bits_1 ++ u64le bits_2)] ∧
    read_u32 (rslice ([0x01, 0x01, 0x03, 0x00, 0x00]
                  ++ u64le bits_1 ++ u64le bits_2) 1 5) 1 = .ok 769 ∧
    (769 : Nat) ≠ 1 := by
  decide

/-- Claim C5. On `LINESTRING EMPTY` (a 9-byte little-endian buffer whose
bytes 1..3 match the XY LINESTRING prefix) the endpoint kernels do not stay
within bounds: the start kernel slices `&buf[9..25]` past the end and the
end kernel underflows `buf.len() - 16`; both panic instead of appending a
value or null. -/
theorem c5_linestring_empty_out_of_bounds :
    linestring_empty_wkb.length = 9 ∧
    st_start_or_end_point_invoke_batch true [some linestring_empty_wkb] = .panic ∧
    st_start_or_end_point_invoke_batch false [some linestring_empty_wkb] = .panic := by
  decide

/-- Claim C8. On the fixture MULTIPOINT whose top-level type code is flagged
XY while its single child POINT is flagged XYZ, the header reports the
top-level dimension XY (type code 4, and 4 / 1000 = 0 ↦ XY) while
`first_geom_dimensions` independently reports the child's XYZ. -/
theorem c8_top_level_and_first_geom_dimensions_independent :
    WkbHeader.try_new multipoint_with_inferred_z_dimension_wkb =
      .ok multipoint_inferred_z_header ∧
    multipoint_inferred_z_header.dimensions = .ok .xy ∧
    multipoint_inferred_z_header.first_geom_dimensions = some .xyz ∧
    multipoint_inferred_z_header.geometry_type / 1000 = 0 := by
  decide

/-- Little-endian u32 serialization round-trips through `read_u32`. -/
theorem read_u32_le_u32le (n : Nat) (rest : List Nat) (h : n < 4294967296) :
    read_u32 (u32le n ++ rest) 1 = .ok n := by
  simp [u32le, read_u32]
  omega

/-- Little-endian u64 serialization round-trips through `parse_coord`. -/
theorem parse_coord_le_u64le (n : Nat) (rest : List Nat)
    (h : n < 18446744073709551616) :
    parse_coord (u64le n ++ rest) 1 = .ok n := by
  simp [u64le, parse_coord]
  omega

/-- `first_xy` on a little-endian polygon buffer with a nonzero ring count
and a nonzero first-ring point count returns the coordinate pair that
follows the first-ring point count. -/
theorem first_xy_poly_shape (n1 n2 x y : Nat) (junk : List Nat)
    (hn1 : n1 < 4294967296) (hn1p : n1 ≠ 0)
    (hn2 : n2 < 4294967296) (hn2p : n2 ≠ 0)
    (hx : x < 18446744073709551616) (hy : y < 18446744073709551616) :
    first_xy (1 :: 3 :: 0 :: 0 :: 0 ::
      (u32le n1 ++ (u32le n2 ++ (u64le x ++ (u64le y ++ junk))))) = .ok (x, y) := by
  have h59 : rslice (1 :: 3 :: 0 :: 0 :: 0 ::
      (u32le n1 ++ (u32le n2 ++ (u64le x ++ (u64le y ++ junk))))) 5 9 = u32le n1 := by
    rfl
  have h913 : rslice (1 :: 3 :: 0 :: 0 :: 0 ::
      (u32le n1 ++ (u32le n2 ++ (u64le x ++ (u64le y ++ junk))))) 9 13 = u32le n2 := by
    rfl
  have hlen : (1 :: 3 :: 0 :: 0 :: 0 ::
      (u32le n1 ++ (u32le n2 ++ (u64le x ++ (u64le y ++ junk))))).length =
      29 + junk.length := by
    simp [u32le, u64le]; omega
  unfold first_xy
  rw [hlen]
  rw [if_neg (by omega)]
  rw [show rslice (1 :: 3 :: 0 :: 0 :: 0 ::
      (u32le n1 ++ (u32le n2 ++ (u64le x ++ (u64le y ++ junk))))) 1 5 = [3,0,0,0] from rfl]
  have hand : (3 &&& 536870912) = 0 := by decide
  have hr3 : read_u32 [3, 0, 0, 0] 1 = .ok 3 := rfl
  have hd8 : List.drop 8 (u32le n1 ++ (u32le n2 ++ (u64le x ++ (u64le y ++ junk)))) =
      u64le x ++ (u64le y ++ junk) := rfl
  have hd16 : List.drop 16 (u32le n1 ++ (u32le n2 ++ (u64le x ++ (u64le y ++ junk)))) =
      u64le y ++ junk := rfl
  have hc9 : ¬ (29 + junk.length < 9) := by omega
  have hc13 : ¬ (29 + junk.length < 13) := by omega
  have hc21 : ¬ (29 + junk.length < 21) := by omega
  have hru1 : read_u32 (u32le n1) 1 = .ok n1 := by
    simpa using read_u32_le_u32le n1 [] hn1
  have hru2 : read_u32 (u32le n2) 1 = .ok n2 := by
    simpa using read_u32_le_u32le n2 [] hn2
  have hd13 : (1 :: 3 :: 0 :: 0 :: 0 ::
      (u32le n1 ++ (u32le n2 ++ (u64le x ++ (u64le y ++ junk))))).drop 13 =
      u64le x ++ (u64le y ++ junk) := rfl
  have hd21 : (1 :: 3 :: 0 :: 0 :: 0 ::
      (u32le n1 ++ (u32le n2 ++ (u64le x ++ (u64le y ++ junk))))).drop 21 =
      u64le y ++ junk := rfl
  simp [hr3, GeometryTypeId.try_from_wkb_id, SRID_FLAG_BIT, h59, h913,
    hru1, hru2, hn1p, hn2p, hc9, hc13, hc21, first_xy_coords, hlen, hd13, hd21,
    hand, hd8, hd16,
    parse_coord_le_u64le x (u64le y ++ junk) hx, parse_coord_le_u64le y junk hy]

/-- `first_xy` on a little-endian polygon buffer with a nonzero ring count
whose first ring has point count 0 returns the NaN sentinel pair. -/
theorem first_xy_poly_ring0_empty (n1 : Nat) (junk : List Nat)
    (hn1 : n1 < 4294967296) (hn1p : n1 ≠ 0) :
    first_xy (1 :: 3 :: 0 :: 0 :: 0 ::
      (u32le n1 ++ (u32le 0 ++ junk))) = .ok (nan_bits, nan_bits) := by
  have h59 : rslice (1 :: 3 :: 0 :: 0 :: 0 ::
      (u32le n1 ++ (u32le 0 ++ junk))) 5 9 = u32le n1 := rfl
  have h913 : rslice (1 :: 3 :: 0 :: 0 :: 0 ::
      (u32le n1 ++ (u32le 0 ++ junk))) 9 13 = u32le 0 := rfl
  have hlen : (1 :: 3 :: 0 :: 0 :: 0 ::
      (u32le n1 ++ (u32le 0 ++ junk))).length = 13 + junk.length := by
    simp [u32le]; omega
  unfold first_xy
  rw [hlen]
  rw [if_neg (by omega)]
  rw [show rslice (1 :: 3 :: 0 :: 0 :: 0 ::
      (u32le n1 ++ (u32le 0 ++ junk))) 1 5 = [3, 0, 0, 0] from rfl]
  have hr3 : read_u32 [3, 0, 0, 0] 1 = .ok 3 := rfl
  have hr0 : read_u32 (u32le 0) 1 = .ok 0 := rfl
  have hru1 : read_u32 (u32le n1) 1 = .ok n1 := by
    simpa using read_u32_le_u32le n1 [] hn1
  have hand : (3 &&& 536870912) = 0 := by decide
  have hc9 : ¬ (13 + junk.length < 9) := by omega
  have hc13 : ¬ (13 + junk.length < 13) := by omega
  simp [hr3, hr0, GeometryTypeId.try_from_wkb_id, SRID_FLAG_BIT, h59, h913,
    hru1, hn1p, hand, hc9, hc13]

set_option maxRecDepth 10000 in
/-- Claim C7. On the WKB of
`POLYGON((1.5 0.5, 1.5 1.5, 1.5 0.5),(0 0,0 1,1 0,0 0))` the header reports
`first_xy = (1.5, 0.5)` (as f64 bit patterns) and `size = 2` (the ring
count). In general, on a little-endian XY polygon, `first_xy` returns the
NaN sentinel pair when the ring count is 0 or when ring 0's point count is
0, and otherwise the coordinate pair that immediately follows ring 0's
point count. -/
theorem c7_polygon_first_xy :
    (WkbHeader.try_new polygon_two_rings_wkb =
       .ok ⟨3, 2, 0, (bits_1p5, bits_0p5), some .xy⟩) ∧
    ∀ (rings : List (List (Nat × Nat))),
      rings.length < 4294967296 →
      (∀ r ∈ rings, r.length < 4294967296) →
      (∀ r ∈ rings, ∀ c ∈ r,
        c.1 < 18446744073709551616 ∧ c.2 < 18446744073709551616) →
      first_xy (polygon_wkb_le rings) =
        .ok (match rings with
             | [] => (nan_bits, nan_bits)
             | [] :: _ => (nan_bits, nan_bits)
             | (c :: _) :: _ => (c.1, c.2)) := by
  refine ⟨by decide, ?_⟩
  intro rings hlen hr hc
  rcases rings with _ | ⟨r0, rs⟩
  · decide
  · rcases r0 with _ | ⟨⟨x, y⟩, r0'⟩
    · have hb : polygon_wkb_le ([] :: rs) =
          1 :: 3 :: 0 :: 0 :: 0 ::
            (u32le (rs.length + 1) ++ (u32le 0 ++ rs.flatMap polygon_ring_bytes)) := by
        simp [polygon_wkb_le, polygon_ring_bytes]
      rw [hb]
      exact first_xy_poly_ring0_empty (rs.length + 1) _
        (by simpa using hlen) (Nat.succ_ne_zero _)
    · have hb : polygon_wkb_le (((x, y) :: r0') :: rs) =
          1 :: 3 :: 0 :: 0 :: 0 ::
            (u32le (rs.length + 1) ++ (u32le (r0'.length + 1) ++
              (u64le x ++ (u64le y ++
                (r0'.flatMap coord_bytes ++ rs.flatMap polygon_ring_bytes))))) := by
        simp [polygon_wkb_le, polygon_ring_bytes, coord_bytes]
      rw [hb]
      have hxy := hc ((x, y) :: r0') (List.mem_cons_self _ _) (x, y)
        (List.mem_cons_self _ _)
      exact first_xy_poly_shape (rs.length + 1) (r0'.length + 1) x y _
        (by simpa using hlen) (Nat.succ_ne_zero _)
        (by simpa using hr ((x, y) :: r0') (List.mem_cons_self _ _))
        (Nat.succ_ne_zero _) hxy.1 hxy.2

/-- Witness for claim C7's theorem, at the two-ring polygon itself. -/
theorem c7_witness :
    first_xy polygon_two_rings_wkb = .ok (bits_1p5, bits_0p5) :=
  c7_polygon_first_xy.2 polygon_two_rings (by decide) (by decide) (by decide)

/-- Null rows flow through the endpoint batch loop as null outputs,
whatever the scratch buffer state. -/
theorem st_endpoint_go_null_spec (f : Bool) :
    ∀ (rows : List (Option (List Nat))) (item : List Nat)
      (outs : List (Option (List Nat))),
      st_start_or_end_point_go f item rows = .ok outs →
      ∀ i, rows.get? i = some none → outs.get? i = some none := by
  intro rows
  induction rows with
  | nil =>
    intro item outs h i hi
    simp only [st_start_or_end_point_go] at h
    cases h
    simp at hi
  | cons row rest ih =>
    intro item outs h i hi
    simp only [st_start_or_end_point_go] at h
    cases hstep : st_start_or_end_point_step f item row with
    | panic => simp only [hstep] at h; cases h
    | err e => simp only [hstep] at h; cases h
    | ok p =>
      obtain ⟨item1, out⟩ := p
      simp only [hstep] at h
      cases hrec : st_start_or_end_point_go f item1 rest with
      | ok outs' =>
        simp only [hrec] at h
        cases h
        cases i with
        | zero =>
          simp only [List.get?_cons_zero, Option.some.injEq] at hi
          subst hi
          simp only [st_start_or_end_point_step] at hstep
          cases hstep
          simp
        | succ j =>
          simp only [List.get?_cons_succ] at hi ⊢
          exact ih item1 outs' hrec j hi
      | err e => simp only [hrec] at h; cases h
      | panic => simp only [hrec] at h; cases h

/-- An all-null endpoint batch succeeds with all-null outputs. -/
theorem st_endpoint_go_all_null (f : Bool) :
    ∀ (n : Nat) (item : List Nat),
      st_start_or_end_point_go f item (List.replicate n none) =
        .ok (List.replicate n none) := by
  intro n
  induction n with
  | zero => intro item; rfl
  | succ k ih =>
    intro item
    simp [List.replicate_succ, st_start_or_end_point_go,
      st_start_or_end_point_step, ih]

/-- A buffer row with a null geometry or a null distance appends a null and
cannot fail. -/
theorem st_buffer_row_null
    (bf : List Nat → Nat → BufferParams → Except String (List Nat))
    (params : BufferParams) (g : Option (List Nat)) (d : Option Nat)
    (h : g = none ∨ d = none) : st_buffer_row bf params g d = .ok none := by
  rcases h with rfl | rfl
  · rfl
  · cases g <;> rfl

/-- Null rows flow through the buffer batch loop as null outputs. -/
theorem st_buffer_rows_null_spec
    (bf : List Nat → Nat → BufferParams → Except String (List Nat))
    (params : BufferParams) :
    ∀ (rows : List (Option (List Nat) × Option Nat)) (outs : List (Option (List Nat))),
      st_buffer_rows bf params rows = .ok outs →
      ∀ i g d, rows.get? i = some (g, d) → (g = none ∨ d = none) →
        outs.get? i = some none := by
  intro rows
  induction rows with
  | nil =>
    intro outs h i g d hi
    simp at hi
  | cons row rest ih =>
    intro outs h i g d hi hnull
    obtain ⟨g0, d0⟩ := row
    simp only [st_buffer_rows] at h
    cases hstep : st_buffer_row bf params g0 d0 with
    | error e => simp only [hstep] at h; cases h
    | ok out =>
      simp only [hstep] at h
      cases hrec : st_buffer_rows bf params rest with
      | error e => simp only [hrec, Except.map] at h; cases h
      | ok outs' =>
        simp only [hrec, Except.map] at h
        cases h
        cases i with
        | zero =>
          simp only [List.get?_cons_zero, Option.some.injEq, Prod.mk.injEq] at hi
          obtain ⟨rfl, rfl⟩ := hi
          rw [st_buffer_row_null _ _ _ _ hnull] at hstep
          cases hstep
          simp
        | succ j =>
          simp only [List.get?_cons_succ] at hi ⊢
          exact ih outs' hrec j g d hi hnull

/-- A buffer batch whose every row has a null geometry or distance succeeds
with all-null outputs. -/
theorem st_buffer_rows_all_null
    (bf : List Nat → Nat → BufferParams → Except String (List Nat))
    (params : BufferParams) :
    ∀ rows, (∀ p ∈ rows, p.1 = none ∨ p.2 = none) →
      st_buffer_rows bf params rows = .ok (rows.map (fun _ => none)) := by
  intro rows
  induction rows with
  | nil => intro _; rfl
  | cons row rest ih =>
    intro h
    obtain ⟨g0, d0⟩ := row
    have hhead := h (g0, d0) (by simp)
    have htail := fun p hp => h p (List.mem_cons_of_mem _ hp)
    simp only [st_buffer_rows, st_buffer_row_null bf params g0 d0 hhead,
      ih htail, Except.map, List.map_cons]

/-- Claim C4. Null inputs propagate to null outputs without failing: for the
endpoint kernels, every null input row of a successful batch yields a null
output row, and a batch of only null rows always succeeds; for the buffer
kernel, every row of a successful batch whose geometry or distance is null
yields a null output row, and rows that are all null in one of the two
arguments always succeed (whatever the external buffer function does). -/
theorem c4_null_in_null_out :
    (∀ (from_start : Bool) (rows outs : List (Option (List Nat))) (i : Nat),
        st_start_or_end_point_invoke_batch from_start rows = .ok outs →
        rows.get? i = some none → outs.get? i = some none) ∧
    (∀ (from_start : Bool) (n : Nat),
        st_start_or_end_point_invoke_batch from_start (List.replicate n none) =
          .ok (List.replicate n none)) ∧
    (∀ (buffer_fn : List Nat → Nat → BufferParams → Except String (List Nat))
        (style : Option String) (rows : List (Option (List Nat) × Option Nat))
        (outs : List (Option (List Nat))) (i : Nat) (g : Option (List Nat)) (d : Option Nat),
        st_buffer_invoke_batch buffer_fn style rows = .ok outs →
        rows.get? i = some (g, d) → g = none ∨ d = none →
        outs.get? i = some none) ∧
    (∀ (buffer_fn : List Nat → Nat → BufferParams → Except String (List Nat))
        (params : BufferParams) (rows : List (Option (List Nat) × Option Nat)),
        (∀ p ∈ rows, p.1 = none ∨ p.2 = none) →
        st_buffer_rows buffer_fn params rows = .ok (rows.map (fun _ => none))) := by
  refine ⟨?_, ?_, ?_, st_buffer_rows_all_null⟩
  · intro f rows outs i h hi
    exact st_endpoint_go_null_spec f rows st_point_item0 outs h i hi
  · intro f n
    exact st_endpoint_go_all_null f n st_point_item0
  · intro bf style rows outs i g d h hi hnull
    unfold st_buffer_invoke_batch at h
    cases hp : parse_buffer_params style with
    | error e => rw [hp] at h; cases h
    | ok params =>
      rw [hp] at h
      exact st_buffer_rows_null_spec bf params rows outs h i g d hi hnull

/-- Witness for claim C4's theorem, at concrete single- and two-row
batches. -/
theorem c4_witness :
    (([none] : List (Option (List Nat))).get? 0 = some none) ∧
    st_start_or_end_point_invoke_batch true (List.replicate 2 none) =
      .ok (List.replicate 2 none) ∧
    ([none, none] : List (Option (List Nat))).get? 1 = some none ∧
    st_buffer_rows (fun _ _ _ => .ok []) builder_default
      [((none : Option (List Nat)), (none : Option Nat))] = .ok [none] :=
  ⟨c4_null_in_null_out.1 true [none] [none] 0 (by rfl) (by rfl),
   c4_null_in_null_out.2.1 true 2,
   c4_null_in_null_out.2.2.1 (fun _ _ _ => .ok []) none
     [(some [1], none), (none, some 5)] [none, none] 1 none (some 5)
     (by rfl) (by rfl) (Or.inl rfl),
   by
     have := c4_null_in_null_out.2.2.2 (fun _ _ _ => .ok []) builder_default
       [((none : Option (List Nat)), (none : Option Nat))] (by decide)
     simpa using this⟩

/-- Claim C6. The style parser yields exactly the first failing token's
message: `endcap=wrong join=mitre` fails with the exact endcap message and
`endcap=round bare_param join=mitre` with the exact missing-value message;
and in general, once a token fails, the error is the same whatever tokens
follow, so the tokens after the first failure are never inspected. -/
theorem c6_first_failing_token_aborts :
    parse_buffer_params (some "endcap=wrong join=mitre") =
      .error "Invalid endcap style: 'wrong'. Valid options: round, flat, butt, square" ∧
    parse_buffer_params (some "endcap=round bare_param join=mitre") =
      .error "Missing value for buffer parameter: bare_param" ∧
    ∀ (b : BufferParamsBuilder) (t : String) (rest rest2 : List String) (e : String),
      apply_buffer_param b t = .error e →
      parse_buffer_params_go b (t :: rest) = .error e ∧
      parse_buffer_params_go b (t :: rest2) = .error e := by
  refine ⟨by decide, by decide, ?_⟩
  intro b t rest rest2 e h
  constructor <;> simp [parse_buffer_params_go, h]

/-- Witness for claim C6's theorem, at the failing `endcap=wrong` token with
two different continuations. -/
theorem c6_witness :
    parse_buffer_params_go builder_default ["endcap=wrong", "join=mitre"] =
      .error "Invalid endcap style: 'wrong'. Valid options: round, flat, butt, square" ∧
    parse_buffer_params_go builder_default ["endcap=wrong"] =
      .error "Invalid endcap style: 'wrong'. Valid options: round, flat, butt, square" :=
  c6_first_failing_token_aborts.2.2 builder_default "endcap=wrong" ["join=mitre"] []
    "Invalid endcap style: 'wrong'. Valid options: round, flat, butt, square" (by decide)

/-- The in-range indices, taken in ascending order, select the whole list. -/
theorem filterMap_get_range (l : List α) :
    (List.range l.length).filterMap (fun i => l.get? i) = l := by
  induction l with
  | nil => simp
  | cons a t ih =>
    rw [List.length_cons, List.range_succ_eq_map]
    rw [List.filterMap_cons]
    simp only [List.get?_cons_zero]
    rw [List.filterMap_map]
    have : (fun i => (a :: t).get? i) ∘ Nat.succ = fun i => t.get? i := by
      funext i
      simp
    rw [this, ih]

/-- When every task completes (the completion order is a permutation of the
task indices), the buffered combinator collects exactly the results, in
input order. -/
theorem buffered_collect_of_perm_range (l : List α) (ord : List Nat)
    (h : ord.Perm (List.range l.length)) : buffered_collect ord l = l := by
  unfold buffered_collect
  have hsorted : List.insertionSort (· ≤ ·) ord = List.range l.length :=
    List.eq_of_perm_of_sorted ((List.perm_insertionSort _ ord).trans h)
      (List.sorted_insertionSort _ ord) (List.sorted_le_range _)
  rw [hsorted, filterMap_get_range]

/-- Claim C9. Schema inference is deterministic in the task completion
order: any two runs over the same `(location, schema)` pairs whose tasks
complete in different orders produce the same merged schema, namely the
merge of the schemas taken in ascending order of location. -/
theorem c9_schema_inference_deterministic :
    ∀ (pairs : List (String × List ArrowField)) (ord1 ord2 : List Nat),
      ord1.Perm (List.range pairs.length) →
      ord2.Perm (List.range pairs.length) →
      record_batch_reader_format_infer_schema pairs ord1 =
        record_batch_reader_format_infer_schema pairs ord2 ∧
      record_batch_reader_format_infer_schema pairs ord1 =
        schema_try_merge
          ((List.insertionSort (fun a b => a.1 ≤ b.1) pairs).map Prod.snd) := by
  intro pairs o1 o2 h1 h2
  unfold record_batch_reader_format_infer_schema
  rw [buffered_collect_of_perm_range _ _ h1, buffered_collect_of_perm_range _ _ h2]
  exact ⟨rfl, rfl⟩

/-- Witness for claim C9's theorem, at two objects completing in the two
possible orders. -/
theorem c9_witness :
    (record_batch_reader_format_infer_schema demo_pairs [1, 0] =
       record_batch_reader_format_infer_schema demo_pairs [0, 1]) ∧
    record_batch_reader_format_infer_schema demo_pairs [1, 0] =
      schema_try_merge
        ((List.insertionSort (fun a b => a.1 ≤ b.1) demo_pairs).map Prod.snd) :=
  c9_schema_inference_deterministic demo_pairs [1, 0] [0, 1] (by decide) (by decide)

/-- Claim C10 counterexample. With both a URL and metadata present,
`to_url_string` renders the URL, a slash, and the location — not the URL
alone as the claim states; and in the local-store case the prefix is
`file:///`, not `file://`. -/
theorem c10_counterexample :
    s3_object.url = some "s3://bucket" ∧
    Object.to_url_string s3_object = "s3://bucket/a.parquet" ∧
    Object.to_url_string s3_object ≠ "s3://bucket" ∧
    Object.to_url_string ⟨"LocalFileSystem(x)", none, some "d/a.bin", none⟩ = "file:///d/a.bin" ∧
    "file:///d/a.bin" ≠ "file://" ++ "d/a.bin" := by
  decide

/-- Claim C10 as amended: `to_url_string` follows exactly the rendering
rules of `to_url_string_spec` (URL alone; URL + "/" + location; heuristic
"https://" / "file:///" prefixing or lowercased-debug fallback when only
metadata is present; store debug rendering when neither is). -/
theorem c10_to_url_string_follows_amended_rules :
    ∀ o : Object, o.to_url_string = to_url_string_spec o := by
  intro o
  obtain ⟨sd, u, m, r⟩ := o
  cases u <;> cases m <;> rfl
